import Mathlib

/-!
Verification development for the ddoresolver-rs crate.

The definitions below are a shallow embedding of the crate's source
(src/lib.rs, src/keri.rs, src/key.rs, src/error.rs).  Machine integers are
modelled as Nat/Int, byte strings as List Nat, fallible Rust code as
Except/Option, and a Rust panic as the panic constructor of the Outcome
type.  External collaborators (the did_key crate's resolver, the keriox
event-stream deserializer and event digests, serde) enter through the
Externals structure, so every theorem about the dispatch layer is stated
for an arbitrary choice of those collaborators unless a concrete
instantiation is needed for a closed evaluation.
-/

/-- Outcome of running a piece of Rust code that may panic: either a normal
result or a panic carrying a message.  A Rust function that cannot panic is
embedded with a plain result type instead. -/
inductive Outcome (α : Type) : Type
  | ok (a : α) : Outcome α
  | panic (msg : String) : Outcome α
deriving DecidableEq, Repr

/-- JWK key data as used by the crate (did_key crate's JWK struct): the
fields the crate reads are the curve label and the optional key id. -/
structure JWK where
  key_id : Option String
  curve : String
  x : Option String
  y : Option String
deriving DecidableEq, Repr

/-- KeyMaterial tagged union (did_key crate's KeyFormat): a Base58 string,
raw Multibase bytes, or a structured JWK. -/
inductive KeyFormat : Type
  | Base58 (value : String)
  | Multibase (value : List Nat)
  | JWK (value : JWK)
deriving DecidableEq, Repr

/-- One verification method entry of a DID document (did_key crate's
VerificationMethod as used by this crate). -/
structure VerificationMethod where
  id : String
  key_type : String
  controller : String
  public_key : Option KeyFormat
  private_key : Option KeyFormat
deriving DecidableEq, Repr

/-- The resolved DID document (did_key crate's Document as used by this
crate).  The relationship lists and the key agreement list are optional
lists of strings, exactly as in the source. -/
structure Document where
  context : String
  id : String
  verification_method : List VerificationMethod
  authentication : Option (List String)
  assertion_method : Option (List String)
  capability_delegation : Option (List String)
  capability_invocation : Option (List String)
  key_agreement : Option (List String)
deriving DecidableEq, Repr

/-- KeyAgreement struct from src/lib.rs. -/
structure KeyAgreement where
  id : String
  r_type : String
  controller : String
  public_key_base58 : String
deriving DecidableEq, Repr

/-- Error enum from src/error.rs (the variants exercised by the embedded
code paths). -/
inductive DdoError : Type
  | DidResolutionFailed
  | DidKeyError (msg : String)
  | DidKeriError (msg : String)
  | Base64DecodeError
deriving DecidableEq, Repr

/-- Display form of the error enum, from the thiserror attributes in
src/error.rs. -/
def errToString : DdoError → String
  | DdoError.DidResolutionFailed => "DID resolution failed."
  | DdoError.DidKeyError m => "did_key error: " ++ m
  | DdoError.DidKeriError m => "did_keri error: " ++ m
  | DdoError.Base64DecodeError => "base64 decode error"

/-! ## Characters and substring search -/

/-- ASCII lowercase letter test, the regex class [a-z]. -/
def isLowerAlpha (c : Char) : Bool := 'a' ≤ c && c ≤ 'z'

/-- ASCII alphanumeric test, the regex class [a-zA-Z0-9]. -/
def isAsciiAlphaNum (c : Char) : Bool :=
  ( 'a' ≤ c && c ≤ 'z' ) || ( 'A' ≤ c && c ≤ 'Z' ) || ( '0' ≤ c && c ≤ '9' )

/-- The regex class [-_a-zA-Z0-9] used for the method capture of the
dispatch regexes and for the key_id capture of DID_REGEX. -/
def isKeyIdChar (c : Char) : Bool := c = '-' || c = '_' || isAsciiAlphaNum c

/-- The regex class [did], i.e. the two characters d and i. -/
def isDi (c : Char) : Bool := c = 'd' || c = 'i'

/-- Substring test on character lists: pat occurs contiguously in l.  This
models Rust str::contains with a string pattern. -/
def hasSubstr (pat : List Char) : List Char → Bool
  | [] => pat.isEmpty
  | c :: t => if pat.isPrefixOf (c :: t) then true else hasSubstr pat t

/-- Rust str::contains on strings: pat occurs as a substring of s. -/
def strContains (s pat : String) : Bool := hasSubstr pat.toList s.toList

/-- Greedy span: longest prefix of characters satisfying p, and the rest.
This models a greedy character-class star in a regex, which is
deterministic whenever the character that must follow is outside the
class. -/
def spanP (p : Char → Bool) : List Char → (List Char × List Char)
  | [] => ([], [])
  | c :: t =>
    if p c then
      let r := spanP p t
      (c :: r.1, r.2)
    else ([], c :: t)

/-! ## Base58 decoding (base58 crate, FromBase58 for str) -/

/-- The bitcoin base58 alphabet used by the base58 crate. -/
def b58Alphabet : List Char :=
  "123456789ABCDEFGHJKLMNPQRSTUVWXYZabcdefghijkmnopqrstuvwxyz".toList

/-- Value of one base58 digit, none when the character is not in the
alphabet (the crate's InvalidBase58Character error). -/
def b58Val (c : Char) : Option Nat :=
  let i := b58Alphabet.indexOf c
  if i < b58Alphabet.length then some i else none

/-- Big-endian base-256 digits of a natural number. -/
def natToBytesBE (n : Nat) : List Nat := (Nat.digits 256 n).reverse

/-- Base58 decoding of a string: fails exactly on characters outside the
alphabet; leading 1 digits decode to leading zero bytes. -/
def fromBase58 (s : String) : Option (List Nat) :=
  match (s.toList.mapM b58Val : Option (List Nat)) with
  | none => none
  | some ds =>
    let n := ds.foldl (fun a d => a * 58 + d) 0
    let zeros := (s.toList.takeWhile (fun c => c = '1')).length
    some (List.replicate zeros 0 ++ natToBytesBE n)

/-! ## Base64url decoding (base64_url crate) -/

/-- Value of one base64url symbol. -/
def b64Val (c : Char) : Option Nat :=
  if 'A' ≤ c && c ≤ 'Z' then some (c.toNat - 65)
  else if 'a' ≤ c && c ≤ 'z' then some (c.toNat - 97 + 26)
  else if '0' ≤ c && c ≤ '9' then some (c.toNat - 48 + 52)
  else if c = '-' then some 62
  else if c = '_' then some 63
  else none

/-- Turn a list of sextet values into bytes.  A remainder of one sextet is
an invalid length; nonzero discarded trailing bits are rejected, as in the
base64 crate used by base64_url. -/
def b64Chunks : List Nat → Except Unit (List Nat)
  | [] => Except.ok []
  | [_] => Except.error ()
  | [a, b] =>
    if b % 16 = 0 then Except.ok [a * 4 + b / 16] else Except.error ()
  | [a, b, c] =>
    if c % 4 = 0 then Except.ok [a * 4 + b / 16, b % 16 * 16 + c / 4]
    else Except.error ()
  | a :: b :: c :: d :: rest =>
    match b64Chunks rest with
    | Except.error e => Except.error e
    | Except.ok bytes =>
      Except.ok ((a * 4 + b / 16) :: (b % 16 * 16 + c / 4) :: (c % 4 * 64 + d) :: bytes)

/-- Base64url (no padding) decoding, modelling base64_url::decode: fails on
characters outside the base64url alphabet, on a length of 4k+1 and on
nonzero trailing bits. -/
def decodeBase64Url (s : String) : Except Unit (List Nat) :=
  match (s.toList.mapM b64Val : Option (List Nat)) with
  | none => Except.error ()
  | some sextets => b64Chunks sextets

/-! ## Document query operations (impl DdoParser for Document, src/lib.rs) -/

/-- find_public_key_for_curve from src/lib.rs: first verification method
whose key_type contains the curve as a substring; Base58 keys are decoded
with an unwrap that panics on malformed input, Multibase bytes pass
through, a JWK key hits the todo! macro and panics. -/
def find_public_key_for_curve (doc : Document) (curve : String) :
    Outcome (Option (List Nat)) :=
  match doc.verification_method.find? (fun m => strContains m.key_type curve) with
  | some k =>
    match k.public_key with
    | some (KeyFormat.Base58 value) =>
      match fromBase58 value with
      | some bytes => Outcome.ok (some bytes)
      | none => Outcome.panic "from_base58 unwrap"
    | some (KeyFormat.Multibase value) => Outcome.ok (some value)
    | some (KeyFormat.JWK _) => Outcome.panic "not yet implemented"
    | none => Outcome.ok none
  | none => Outcome.ok none

/-- The search predicate of get_public_key in src/lib.rs: the public key is
a JWK whose curve field contains the query as a substring. -/
def jwkCurveMatch (m : VerificationMethod) (curve : String) : Bool :=
  match m.public_key with
  | some (KeyFormat.JWK jwk) => strContains jwk.curve curve
  | _ => false

/-- get_public_key helper from src/lib.rs. -/
def get_public_key (doc : Document) (curve : String) : Option KeyFormat :=
  match doc.verification_method.find? (fun m => jwkCurveMatch m curve) with
  | some vm => vm.public_key
  | none => none

/-- find_public_key_id_for_curve from src/lib.rs: key id of the JWK found
by get_public_key. -/
def find_public_key_id_for_curve (doc : Document) (curve : String) :
    Option String :=
  match get_public_key doc curve with
  | some (KeyFormat.JWK key) => key.key_id
  | some _ => none
  | none => none

/-- find_public_key_controller_for_curve from src/lib.rs: controller of the
first verification method whose key_type contains the curve. -/
def find_public_key_controller_for_curve (doc : Document) (curve : String) :
    Option String :=
  match doc.verification_method.find? (fun vm => strContains vm.key_type curve) with
  | some vm => some vm.controller
  | none => none

/-- find_key_agreement from src/lib.rs; the serde_json parse of the found
entry is an external collaborator passed as kaP, and a parse failure is
absorbed by unwrap_or(None). -/
def find_key_agreement (kaP : String → Except Unit (Option KeyAgreement))
    (doc : Document) (pattern : String) : Option KeyAgreement :=
  match doc.key_agreement with
  | none => none
  | some agreements =>
    match agreements.find? (fun a => strContains a pattern) with
    | some a =>
      match kaP a with
      | Except.ok r => r
      | Except.error _ => none
    | none => none

/-! ## Key event log replay (src/keri.rs and the keriox state machine) -/

/-- Basic key derivation codes of the keriox crate that the crate's
as_string helper discriminates on, plus further codes covered by its
catch-all arm. -/
inductive Basic : Type
  | Ed25519NT
  | Ed25519
  | ECDSAsecp256k1NT
  | ECDSAsecp256k1
  | X25519
  | Ed448NT
  | Ed448
  | X448
deriving DecidableEq, Repr

/-- One current public key of the identifier state (keriox BasicPrefix):
a derivation code together with the raw key bytes returned by
derivative(). -/
structure BasicKey where
  derivation : Basic
  derivative : List Nat
deriving DecidableEq, Repr

/-- Kind of a key event: inception, rotation or interaction. -/
inductive KeriEventType : Type
  | icp
  | rot
  | ixn
deriving DecidableEq, Repr

/-- Modelled from the spec: one key event record (section 4.4), carrying
its kind, sequence number, optional predecessor digest, the new current
key list for inception and rotation events, and the next-key commitment
that is accepted but not otherwise consumed.  The keriox event message
types are external to src. -/
structure KeyEvent where
  etype : KeriEventType
  sequence_no : Int
  predecessor_digest : Option String
  keys : List BasicKey
  next_commitment : Option String
deriving DecidableEq, Repr

/-- Modelled from the spec: the replay state (section 4.4), with the zero
state having sequence number -1, no last digest and no current keys.  The
keriox IdentifierState is external to src. -/
structure IdentifierState where
  sequence_no : Int
  last_digest : Option String
  current_public_keys : List BasicKey
deriving DecidableEq, Repr

/-- The zero replay state. -/
def initialState : IdentifierState :=
  { sequence_no := -1, last_digest := none, current_public_keys := [] }

/-- Modelled from the spec: the transition rule of section 4.4 (keriox
IdentifierState::apply is external to src).  An event is accepted iff its
sequence number is exactly the successor of the state's and, past the zero
state, its predecessor digest equals the digest of the last applied event;
inception and rotation replace the current keys, interaction keeps them;
a rejected event yields the ReplayRejected error carrying its sequence
number and does not produce a new state.  The digest function over events
is an external cryptographic primitive passed as a parameter. -/
def applyEvent (digest : KeyEvent → String) (st : IdentifierState)
    (e : KeyEvent) : Except Int IdentifierState :=
  if e.sequence_no = st.sequence_no + 1 ∧
      (st.sequence_no = -1 ∨ e.predecessor_digest = st.last_digest) then
    Except.ok
      { sequence_no := e.sequence_no
        last_digest := some (digest e)
        current_public_keys :=
          match e.etype with
          | KeriEventType.icp => e.keys
          | KeriEventType.rot => e.keys
          | KeriEventType.ixn => st.current_public_keys }
  else Except.error e.sequence_no

/-- The second fold of mem_parse in src/keri.rs: fold the zero state over
the event list, unwrapping the result of apply at every step, so the whole
replay panics as soon as one event is rejected. -/
def replayFold (digest : KeyEvent → String) (events : List KeyEvent) :
    Outcome IdentifierState :=
  events.foldl
    (fun acc e =>
      match acc with
      | Outcome.panic m => Outcome.panic m
      | Outcome.ok st =>
        match applyEvent digest st e with
        | Except.ok st2 => Outcome.ok st2
        | Except.error _ => Outcome.panic "apply unwrap")
    (Outcome.ok initialState)

/-- Items produced by the keriox signed_event_stream deserializer: an
event, or another item kind that mem_parse filters out. -/
inductive Deserialized : Type
  | event (e : KeyEvent)
  | other
deriving DecidableEq, Repr

/-- External collaborators of the embedded code: the did_key crate's
resolver consumed by DidKeyResolver, the keriox signed_event_stream
deserializer, the keriox event digest, and the serde parse of a key
agreement entry. -/
structure Externals where
  extKey : String → Except String Document
  parseStream : List Nat → Except Unit (List Deserialized)
  digest : KeyEvent → String
  kaParse : String → Except Unit (Option KeyAgreement)

/-- mem_parse from src/keri.rs: run the external deserializer over the raw
key event log, unwrapping its result (a panic on a malformed stream), keep
the event items in order, then fold the zero state over them unwrapping
every apply.  The utf8-lossy string round-trip the source performs on the
bytes is folded into the external deserializer. -/
def mem_parse (E : Externals) (kel : List Nat) : Outcome IdentifierState :=
  match E.parseStream kel with
  | Except.error _ => Outcome.panic "signed_event_stream unwrap"
  | Except.ok items =>
    replayFold E.digest
      (items.foldl
        (fun acc i =>
          match i with
          | Deserialized.event ev => acc ++ [ev]
          | Deserialized.other => acc)
        [])

/-- as_string from src/keri.rs: map a derivation code to the document key
type label, with a catch-all for unrecognized codes. -/
def as_string (b : Basic) : String :=
  match b with
  | Basic.Ed25519NT => "Ed25519VerificationKey2018"
  | Basic.Ed25519 => "Ed25519VerificationKey2018"
  | Basic.ECDSAsecp256k1 => "EcdsaSecp256k1VerificationKey2019"
  | Basic.ECDSAsecp256k1NT => "EcdsaSecp256k1VerificationKey2019"
  | Basic.X25519 => "X25519KeyAgreementKey2019"
  | _ => "bad key type"

/-! ## DID_REGEX (src/lib.rs) and the helpers built on it -/

/-- One match attempt of DID_REGEX at the head of the list: three
characters from the class [did], a colon, a greedy run of [a-z], a colon,
then a greedy run of [-_a-zA-Z0-9]; the captures are the three runs.  The
trailing optional [:?/] character and the lazy S star of the pattern match
unconditionally and bind no capture used by the crate. -/
def matchAtDid (l : List Char) : Option (List Char × List Char × List Char) :=
  match l with
  | c1 :: c2 :: c3 :: rest0 =>
    if isDi c1 && isDi c2 && isDi c3 then
      match rest0 with
      | ':' :: rest =>
        let ms := spanP isLowerAlpha rest
        match ms.2 with
        | ':' :: r => some ([ c1, c2, c3 ], ms.1, (spanP isKeyIdChar r).1)
        | _ => none
      | _ => none
    else none
  | _ => none

/-- Unanchored leftmost search with DID_REGEX: try a match at every
position from the left. -/
def scanDid : List Char → Option (List Char × List Char × List Char)
  | [] => none
  | c :: t =>
    match matchAtDid (c :: t) with
    | some r => some r
    | none => scanDid t

/-- did_id_from_url from src/lib.rs: format the prefix, method and key_id
captures of DID_REGEX, or none when the regex does not match. -/
def did_id_from_url (url : String) : Option String :=
  (scanDid url.toList).map
    (fun cap => String.mk (cap.1 ++ ':' :: cap.2.1 ++ ':' :: cap.2.2))

/-- key_id_from_didurl from src/lib.rs: the key_id capture of DID_REGEX
prefixed with a hash sign, or the empty string when the regex does not
match.  The key_id group always participates in a match, so the some
branch always formats. -/
def key_id_from_didurl (url : String) : String :=
  match scanDid url.toList with
  | some cap => String.mk ( '#' :: cap.2.2)
  | none => ""

/-! ## The keri resolver (src/keri.rs) -/

/-- The verification method that DidKeriResolver::resolve builds for one
current public key of the replayed state. -/
def keriVM (did_url : String) (bk : BasicKey) : VerificationMethod :=
  { id := key_id_from_didurl did_url
    key_type := as_string bk.derivation
    controller := did_url
    public_key := some (KeyFormat.Multibase bk.derivative)
    private_key := none }

/-- The document that DidKeriResolver::resolve builds: id set to the given
did_url verbatim, one verification method per current public key in state
order, everything else empty. -/
def didKeriResolveDoc (st : IdentifierState) (did_url : String) : Document :=
  { context := "https://www.w3.org/ns/did/v1"
    id := did_url
    verification_method := st.current_public_keys.map (keriVM did_url)
    assertion_method := none
    authentication := none
    capability_delegation := none
    capability_invocation := none
    key_agreement := none }

/-- DidKeriResolver::resolve from src/keri.rs: always Ok. -/
def didKeriResolve (st : IdentifierState) (did_url : String) :
    Except DdoError Document :=
  Except.ok (didKeriResolveDoc st did_url)

/-- DidKeyResolver::resolve from src/key.rs: delegate to the external
did_key crate resolver and wrap its error. -/
def didKeyResolve (E : Externals) (did_url : String) :
    Except DdoError Document :=
  match E.extKey did_url with
  | Except.ok d => Except.ok d
  | Except.error e => Except.error (DdoError.DidKeyError e)

/-! ## The dispatch regex shared by try_resolve_any and resolve_any -/

/-- Recognize the optional trailing kerl group of the dispatch regex: the
literal characters question mark k e r l equals, followed by a nonempty
run drawn from [a-zA-Z0-9] extending to the end of the input. -/
def kerlTail (l : List Char) : Option (List Char) :=
  match l with
  | '?' :: 'k' :: 'e' :: 'r' :: 'l' :: '=' :: k =>
    if k.isEmpty then none
    else if k.all isAsciiAlphaNum then some k else none
  | _ => none

/-- Split the tail after the second colon into the lazy id capture and the
optional kerl capture: the id grows one character at a time (never across
a newline, which the dot of the regex cannot match), and at each split the
engine first tries to read the kerl group extending to the end; if no
split succeeds the whole tail becomes the id and the kerl group is
absent. -/
def splitId (acc : List Char) : List Char → Option (List Char × Option (List Char))
  | [] => some (acc, none)
  | c :: t =>
    if c = '\n' then none
    else
      match kerlTail t with
      | some k => some (acc ++ [ c ], some k)
      | none => splitId (acc ++ [ c ]) t

/-- The anchored dispatch regex of try_resolve_any and resolve_any
(src/lib.rs lines 127 and 161; their method classes denote the same set):
the literal prefix did and a colon, a greedy method run over
[-_a-zA-Z0-9] followed by a colon, a nonempty lazy id, and optionally the
kerl group.  Returns the method, id and optional kerl captures. -/
def parseDispatch (l : List Char) :
    Option (List Char × List Char × Option (List Char)) :=
  match l with
  | 'd' :: 'i' :: 'd' :: ':' :: rest =>
    match (spanP isKeyIdChar rest).2 with
    | ':' :: r =>
      match r with
      | [] => none
      | _ :: _ =>
        match splitId [] r with
        | some (id, kerl) => some ((spanP isKeyIdChar rest).1, id, kerl)
        | none => none
    | _ => none
  | _ => none

/-! ## try_resolve_any and resolve_any (src/lib.rs) -/

/-- try_resolve_any from src/lib.rs.  On the key method the original url
is passed to the resolver and its error re-wrapped through its display
form; on the keri method the source indexes the kerlid capture, which
panics when the optional group did not participate in the match, then
base64url-decodes the kerl value, surfacing the decode error, and resolves
the replayed state against the re-formatted bare did; the source's
checks of the kerlid and kerl captures against the empty string are dead
branches because a participating kerlid is always the literal query prefix
and a participating kerl is nonempty. -/
def try_resolve_any (E : Externals) (did_url : String) :
    Outcome (Except DdoError Document) :=
  match parseDispatch did_url.toList with
  | none => Outcome.ok (Except.error (DdoError.DidKeyError "not a did url"))
  | some (m, id, kerl) =>
    if m = "key".toList then
      Outcome.ok
        (match didKeyResolve E did_url with
         | Except.ok d => Except.ok d
         | Except.error e =>
           Except.error (DdoError.DidKeyError (errToString e)))
    else if m = "keri".toList then
      match kerl with
      | none => Outcome.panic "no group kerlid"
      | some k =>
        match decodeBase64Url (String.mk k) with
        | Except.error _ => Outcome.ok (Except.error DdoError.Base64DecodeError)
        | Except.ok bytes =>
          match mem_parse E bytes with
          | Outcome.panic msg => Outcome.panic msg
          | Outcome.ok st =>
            Outcome.ok (didKeriResolve st (String.mk ("did:keri:".toList ++ id)))
    else Outcome.ok (Except.error (DdoError.DidKeyError "not supported key url"))

/-- The kerl bytes resolve_any feeds to the keri resolver: the base64url
decode of the capture, with a decode failure collapsed to the empty byte
string by unwrap_or. -/
def kerlBytes (k : List Char) : List Nat :=
  match decodeBase64Url (String.mk k) with
  | Except.ok bs => bs
  | Except.error _ => []

/-- resolve_any from src/lib.rs.  On the keri method the source indexes
the kerl capture, which panics when the optional group did not participate
in the match; a base64url decode failure is collapsed to an empty event
log by unwrap_or; each resolver is then invoked on the re-formatted url
built from the prefix, method and id captures, and any resolver error is
collapsed to none. -/
def resolve_any (E : Externals) (did_url : String) : Outcome (Option Document) :=
  match parseDispatch did_url.toList with
  | none => Outcome.ok none
  | some (m, id, kerl) =>
    if m = "key".toList then
      match didKeyResolve E (String.mk ("did:".toList ++ m ++ ':' :: id)) with
      | Except.ok doc => Outcome.ok (some doc)
      | Except.error _ => Outcome.ok none
    else if m = "keri".toList then
      match kerl with
      | none => Outcome.panic "no group kerl"
      | some k =>
        match mem_parse E (kerlBytes k) with
        | Outcome.panic msg => Outcome.panic msg
        | Outcome.ok st =>
          match didKeriResolve st (String.mk ("did:".toList ++ m ++ ':' :: id)) with
          | Except.ok doc => Outcome.ok (some doc)
          | Except.error _ => Outcome.ok none
    else Outcome.ok none

/-! ## Concrete instantiations used by closed evaluations -/

/-- A concrete choice of externals: the key resolver always fails, the
stream deserializer yields no items (its value on the empty stream, the
only input the closed theorems below feed it), the digest is the printed
sequence number. -/
def extZero : Externals :=
  { extKey := fun _ => Except.error "ext"
    parseStream := fun _ => Except.ok []
    digest := fun e => toString e.sequence_no
    kaParse := fun _ => Except.error () }

/-- A document with the given verification methods and nothing else, for
concrete evaluations. -/
def mkDoc (vms : List VerificationMethod) : Document :=
  { context := ""
    id := ""
    verification_method := vms
    authentication := none
    assertion_method := none
    capability_delegation := none
    capability_invocation := none
    key_agreement := none }

/-- A verification method of Ed25519 type whose key is JWK-encoded. -/
def vmJwkEd : VerificationMethod :=
  { id := "#k"
    key_type := "Ed25519VerificationKey2018"
    controller := "did:ex:1"
    public_key := some (KeyFormat.JWK
      { key_id := some "k1", curve := "Ed25519", x := none, y := none })
    private_key := none }

/-- A verification method of Ed25519 type whose Base58 key string holds a
character outside the base58 alphabet. -/
def vmBadB58 : VerificationMethod :=
  { id := "#k"
    key_type := "Ed25519VerificationKey2018"
    controller := "did:ex:1"
    public_key := some (KeyFormat.Base58 "0")
    private_key := none }

/-- The sample digest used in closed replay evaluations. -/
def digestW : KeyEvent → String := fun e => toString e.sequence_no

/-- A sample current key. -/
def bkA : BasicKey := { derivation := Basic.Ed25519, derivative := [1, 2, 3] }

/-- A second sample current key. -/
def bkB : BasicKey := { derivation := Basic.X25519, derivative := [4, 5] }

/-- An inception event at sequence number zero installing one key. -/
def evW0 : KeyEvent :=
  { etype := KeriEventType.icp
    sequence_no := 0
    predecessor_digest := none
    keys := [bkA]
    next_commitment := none }

/-- A rotation event whose sequence number skips ahead to two, violating
the ordering rule after the inception above. -/
def evW2 : KeyEvent :=
  { etype := KeriEventType.rot
    sequence_no := 2
    predecessor_digest := some "0"
    keys := [bkB]
    next_commitment := none }

/-- The state after applying only the inception event. -/
def stW1 : IdentifierState :=
  { sequence_no := 0, last_digest := some "0", current_public_keys := [bkA] }

/-! ## Claim theorems -/

/-- Claim C1: the claim states that resolve_any never panics and returns
Some or None for every input, in particular for did:keri urls without a
kerl query.  The code violates this: on the input did:keri:abc the keri
arm indexes the kerl capture group, which did not participate in the
match, and panics. -/
theorem spec_C1 : resolve_any extZero "did:keri:abc" = Outcome.panic "no group kerl" := by
  rfl

/-- Claim C2: the claim states that every document query operation is
total, in particular that find_public_key_for_curve yields no candidate
on a JWK-keyed first match and survives a malformed Base58 key string.
The code violates both: the JWK arm is the todo! macro and the Base58 arm
unwraps the decode, so both inputs panic. -/
theorem spec_C2 :
    find_public_key_for_curve (mkDoc [vmJwkEd]) "Ed25519" =
      Outcome.panic "not yet implemented" ∧
    find_public_key_for_curve (mkDoc [vmBadB58]) "Ed25519" =
      Outcome.panic "from_base58 unwrap" := by
  exact ⟨by rfl, by rfl⟩

/-- Claim C3: the claim states that a rejected event leaves the replay at
the last successfully applied state and reports the rejected event.  The
code instead unwraps every apply inside the fold of mem_parse, so the
replay of an inception followed by an out-of-order rotation panics and
aborts, discarding the state reached after the inception; the rejection
itself does occur, as the middle conjunct shows. -/
theorem spec_C3 :
    replayFold digestW [evW0] = Outcome.ok stW1 ∧
    applyEvent digestW stW1 evW2 = Except.error 2 ∧
    replayFold digestW [evW0, evW2] = Outcome.panic "apply unwrap" := by
  exact ⟨by rfl, by rfl, by rfl⟩

/-- Claim C6: the claim states that every base64url kerl value, including
values holding the alphabet characters dash and underscore, is recognized,
decoded and handed to the keri strategy.  The dispatch regex only admits
[a-zA-Z0-9] in the kerl capture, so the value a-b is folded into the id
capture, the kerl group does not participate, and resolve_any panics on
the capture index instead of decoding anything. -/
theorem spec_C6 :
    parseDispatch "did:keri:abc?kerl=a-b".toList =
      some ("keri".toList, "abc?kerl=a-b".toList, none) ∧
    resolve_any extZero "did:keri:abc?kerl=a-b" = Outcome.panic "no group kerl" := by
  exact ⟨by rfl, by rfl⟩

/-! ## Helper lemmas about greedy spans -/

/-- A span over a list all of whose characters satisfy the class consumes
the whole list. -/
theorem spanP_all (p : Char → Bool) (xs : List Char)
    (h : ∀ x ∈ xs, p x = true) : spanP p xs = (xs, []) := by
  induction xs with
  | nil => rfl
  | cons c t ih =>
    have hc : p c = true := h c (List.mem_cons_self c t)
    have ht : ∀ x ∈ t, p x = true := fun x hx => h x (List.mem_cons_of_mem c hx)
    simp [spanP, hc, ih ht]

/-- A span stops exactly at the first character outside the class. -/
theorem spanP_stop (p : Char → Bool) (xs : List Char) (y : Char)
    (ys : List Char) (h : ∀ x ∈ xs, p x = true) (hy : p y = false) :
    spanP p (xs ++ y :: ys) = (xs, y :: ys) := by
  induction xs with
  | nil => simp [spanP, hy]
  | cons c t ih =>
    have hc : p c = true := h c (List.mem_cons_self c t)
    have ht : ∀ x ∈ t, p x = true := fun x hx => h x (List.mem_cons_of_mem c hx)
    simp [spanP, hc, ih ht]

/-- Claim C4, counterexample: the claim asserts the round trip for every
method matching [a-z][a-z0-9]*, but the method class of DID_REGEX is
[a-z]*, so a method holding a digit does not match at any position and
did_id_from_url returns none instead of the input. -/
theorem spec_C4_cex : did_id_from_url "did:m1:abc" = none := by rfl

/-- Claim C4 as amended: for a method that is a nonempty run of lowercase
letters only (digits are not accepted by DID_REGEX) and an identifier
that is a nonempty run over [-_a-zA-Z0-9], with no query and no fragment,
parsing and re-emitting the canonical id returns exactly the input. -/
theorem spec_C4 (m id : List Char) (hm : m ≠ [])
    (hmc : ∀ c ∈ m, isLowerAlpha c = true) (hid : id ≠ [])
    (hidc : ∀ c ∈ id, isKeyIdChar c = true) :
    did_id_from_url (String.mk ( 'd' :: 'i' :: 'd' :: ':' :: (m ++ ':' :: id))) =
      some (String.mk ( 'd' :: 'i' :: 'd' :: ':' :: (m ++ ':' :: id))) := by
  have h1 : spanP isLowerAlpha (m ++ ':' :: id) = (m, ':' :: id) :=
    spanP_stop isLowerAlpha m ':' id hmc (by rfl)
  have h2 : spanP isKeyIdChar id = (id, []) := spanP_all isKeyIdChar id hidc
  have hmatch :
      matchAtDid ( 'd' :: 'i' :: 'd' :: ':' :: (m ++ ':' :: id)) =
        some ([ 'd', 'i', 'd' ], m, id) := by
    simp [matchAtDid, isDi, h1, h2]
  have hscan :
      scanDid ( 'd' :: 'i' :: 'd' :: ':' :: (m ++ ':' :: id)) =
        some ([ 'd', 'i', 'd' ], m, id) := by
    simp [scanDid, hmatch]
  simp [did_id_from_url, hscan]

/-- Claim C4, witness: the amended round trip evaluated at did:key:abc. -/
theorem spec_C4_witness : did_id_from_url "did:key:abc" = some "did:key:abc" :=
  spec_C4 [ 'k', 'e', 'y' ] [ 'a', 'b', 'c' ] (by decide) (by decide)
    (by decide) (by decide)

/-- Find over an append whose left part has no match returns the first
match of the remainder. -/
theorem find_first {α : Type} (p : α → Bool) (pre post : List α) (x : α)
    (hpre : ∀ u ∈ pre, p u = false) (hx : p x = true) :
    (pre ++ x :: post).find? p = some x := by
  induction pre with
  | nil => simp [List.find?_cons_of_pos, hx]
  | cons c t ih =>
    have hc : p c = false := hpre c (List.mem_cons_self c t)
    have ht : ∀ u ∈ t, p u = false := fun u hu => hpre u (List.mem_cons_of_mem c hu)
    simp [List.find?_cons_of_neg, hc, ih ht]

/-- Claim C7: find_public_key_for_curve returns the decoded bytes of the
first verification method in document order whose key_type contains the
curve as a substring, decoding Base58 and passing Multibase bytes through
unchanged; the methods after the first match, matching or not, are
ignored, which is the strict first-match tie-break. -/
theorem spec_C7 (doc : Document) (pre post : List VerificationMethod)
    (vm : VerificationMethod) (curve : String) (b : List Nat)
    (hsplit : doc.verification_method = pre ++ vm :: post)
    (hpre : ∀ u ∈ pre, strContains u.key_type curve = false)
    (hvm : strContains vm.key_type curve = true)
    (hkey : vm.public_key = some (KeyFormat.Multibase b) ∨
      ∃ v, vm.public_key = some (KeyFormat.Base58 v) ∧ fromBase58 v = some b) :
    find_public_key_for_curve doc curve = Outcome.ok (some b) := by
  have hfind :
      doc.verification_method.find? (fun m => strContains m.key_type curve) =
        some vm := by
    rw [hsplit]
    exact find_first _ pre post vm hpre hvm
  rcases hkey with hmb | ⟨v, hb58, hdec⟩
  · simp [find_public_key_for_curve, hfind, hmb]
  · simp [find_public_key_for_curve, hfind, hb58, hdec]

/-- A verification method whose key_type does not mention X25519. -/
def vmOther : VerificationMethod :=
  { id := "#z"
    key_type := "EcdsaSecp256k1VerificationKey2019"
    controller := "did:ex:1"
    public_key := some (KeyFormat.Multibase [7])
    private_key := none }

/-- The earlier of two X25519 methods, carrying Multibase bytes. -/
def vmXa : VerificationMethod :=
  { id := "#a"
    key_type := "X25519KeyAgreementKey2019"
    controller := "did:ex:1"
    public_key := some (KeyFormat.Multibase [1, 2])
    private_key := none }

/-- The later of two X25519 methods. -/
def vmXb : VerificationMethod :=
  { id := "#b"
    key_type := "X25519KeyAgreementKey2019"
    controller := "did:ex:1"
    public_key := some (KeyFormat.Multibase [9])
    private_key := none }

/-- Claim C7, witness: with a non-matching method first and two matching
methods after it, the bytes of the earlier matching method are returned. -/
theorem spec_C7_witness :
    find_public_key_for_curve (mkDoc [vmOther, vmXa, vmXb]) "X25519" =
      Outcome.ok (some [1, 2]) :=
  spec_C7 (mkDoc [vmOther, vmXa, vmXb]) [vmOther] [vmXb] vmXa "X25519" [1, 2]
    rfl (by decide) (by decide) (Or.inl rfl)

/-- The JWK of the C8 counterexample: its curve field does not contain the
query, while the surrounding method's key_type does. -/
def jwkP256 : JWK := { key_id := some "k1", curve := "P-256", x := none, y := none }

/-- An Ed25519-typed verification method whose JWK declares curve P-256. -/
def vmJwkP256 : VerificationMethod :=
  { id := "#k"
    key_type := "Ed25519VerificationKey2018"
    controller := "did:ex:1"
    public_key := some (KeyFormat.JWK jwkP256)
    private_key := none }

/-- Claim C8, counterexample: the claim says the search matches on
key_type like find_public_key_for_curve; on a document whose only method
has an Ed25519 key_type and a JWK key with key id k1 but curve field
P-256, the claim demands some k1, yet the code matches on the JWK curve
field and returns none. -/
theorem spec_C8_cex :
    find_public_key_id_for_curve (mkDoc [vmJwkP256]) "Ed25519" = none ∧
    strContains vmJwkP256.key_type "Ed25519" = true ∧
    vmJwkP256.public_key = some (KeyFormat.JWK jwkP256) ∧
    jwkP256.key_id = some "k1" := by
  exact ⟨by rfl, by rfl, by rfl, by rfl⟩

/-- Claim C8 as amended: find_public_key_id_for_curve matches the first
verification method whose public key is a JWK whose curve field contains
the query as a substring (the key_type field plays no part), and returns
the key identifier embedded in that JWK. -/
theorem spec_C8 (doc : Document) (pre post : List VerificationMethod)
    (vm : VerificationMethod) (curve : String) (jwk : JWK)
    (hsplit : doc.verification_method = pre ++ vm :: post)
    (hpre : ∀ u ∈ pre, jwkCurveMatch u curve = false)
    (hjwk : vm.public_key = some (KeyFormat.JWK jwk))
    (hc : strContains jwk.curve curve = true) :
    find_public_key_id_for_curve doc curve = jwk.key_id := by
  have hvm : jwkCurveMatch vm curve = true := by
    simp [jwkCurveMatch, hjwk, hc]
  have hfind :
      doc.verification_method.find? (fun m => jwkCurveMatch m curve) = some vm := by
    rw [hsplit]
    exact find_first _ pre post vm hpre hvm
  simp [find_public_key_id_for_curve, get_public_key, hfind, hjwk]

/-- The JWK of the C8 witness, declaring curve X25519 and a key id. -/
def jwkX : JWK := { key_id := some "kid1", curve := "X25519", x := none, y := none }

/-- A method carrying the witness JWK. -/
def vmJwkX : VerificationMethod :=
  { id := "#x"
    key_type := "X25519KeyAgreementKey2019"
    controller := "did:ex:1"
    public_key := some (KeyFormat.JWK jwkX)
    private_key := none }

/-- Claim C8, witness: the amended search evaluated on a one-method
document whose JWK curve matches. -/
theorem spec_C8_witness :
    find_public_key_id_for_curve (mkDoc [vmJwkX]) "X25519" = some "kid1" :=
  spec_C8 (mkDoc [vmJwkX]) [] [] vmJwkX "X25519" jwkX rfl (by decide) rfl
    (by decide)

/-- Claim C10: for every identifier state and every url string, valid DID
url or not, DidKeriResolver::resolve returns Ok; the document's id is the
given url verbatim and its verification method list is the image, in
order, of the replayed current key list, hence one entry per key. -/
theorem spec_C10 (st : IdentifierState) (url : String) :
    ∃ doc, didKeriResolve st url = Except.ok doc ∧ doc.id = url ∧
      doc.verification_method = st.current_public_keys.map (keriVM url) ∧
      doc.verification_method.length = st.current_public_keys.length :=
  ⟨didKeriResolveDoc st url, rfl, rfl, rfl, by simp [didKeriResolveDoc]⟩

/-- Every verification method built by the keri resolver carries no
private key. -/
theorem keriDoc_private_key_none (st : IdentifierState) (url : String) :
    ∀ vm ∈ (didKeriResolveDoc st url).verification_method,
      vm.private_key = none := by
  intro vm hvm
  simp only [didKeriResolveDoc, List.mem_map] at hvm
  obtain ⟨bk, _, hbk⟩ := hvm
  rw [← hbk]
  rfl

/-- A document coming out of the keri continuation of resolve_any has no
private keys in its verification methods. -/
theorem keriCont_private (E : Externals) (bytes : List Nat) (u : String)
    (doc : Document)
    (h : (match mem_parse E bytes with
          | Outcome.panic msg => Outcome.panic msg
          | Outcome.ok st =>
            match didKeriResolve st u with
            | Except.ok d => Outcome.ok (some d)
            | Except.error _ => Outcome.ok none) = Outcome.ok (some doc)) :
    ∀ vm ∈ doc.verification_method, vm.private_key = none := by
  split at h
  · simp at h
  · rename_i st hst
    split at h
    · rename_i d hd
      have hd2 : d = doc := by simpa using h
      subst hd2
      have hdoc : didKeriResolveDoc st u = d := by simpa [didKeriResolve] using hd
      rw [← hdoc]
      exact keriDoc_private_key_none st u
    · simp at h

/-- Claim C9: resolution never populates private key material.  The first
conjunct settles it for the keri resolver, whose document construction is
in the source; the second settles it for the dispatch entry point, where
the documents of the key method come from the external did_key resolver,
assumed (as the spec's external strategy contract states) to leave
private keys unset. -/
theorem spec_C9 (E : Externals)
    (hext : ∀ u d, E.extKey u = Except.ok d →
      ∀ vm ∈ d.verification_method, vm.private_key = none) :
    (∀ st url doc, didKeriResolve st url = Except.ok doc →
      ∀ vm ∈ doc.verification_method, vm.private_key = none) ∧
    (∀ s doc, resolve_any E s = Outcome.ok (some doc) →
      ∀ vm ∈ doc.verification_method, vm.private_key = none) := by
  constructor
  · intro st url doc h
    have hdoc : didKeriResolveDoc st url = doc := by
      simpa [didKeriResolve] using h
    rw [← hdoc]
    exact keriDoc_private_key_none st url
  · intro s doc h
    unfold resolve_any at h
    split at h
    · simp at h
    · rename_i m id kerl
      split at h
      · rename_i hm
        split at h
        · rename_i d hd
          have : d = doc := by simpa using h
          subst this
          simp only [didKeyResolve] at hd
          split at hd
          · rename_i d0 hd0
            have : d0 = d := by simpa using hd
            subst this
            exact hext _ _ hd0
          · simp at hd
        · simp at h
      · split at h
        · rename_i hkeri
          split at h
          · simp at h
          · rename_i k
            exact keriCont_private E (kerlBytes k) _ doc h
        · simp at h

/-- A string is the mk of its character list. -/
theorem mk_toList (s : String) : String.mk s.toList = s := by
  cases s
  rfl

/-- A span splits its input into the two components. -/
theorem spanP_decomp (p : Char → Bool) (l : List Char) :
    l = (spanP p l).1 ++ (spanP p l).2 := by
  induction l with
  | nil => rfl
  | cons c t ih =>
    by_cases hc : p c = true
    · simp [spanP, hc]
      exact ih
    · simp [spanP, hc]

/-- When the id split reports an absent kerl group, the id capture is the
accumulator followed by the whole remaining input. -/
theorem splitId_none_eq (r : List Char) : ∀ acc idc : List Char,
    splitId acc r = some (idc, none) → idc = acc ++ r := by
  induction r with
  | nil =>
    intro acc idc h
    simp [splitId] at h
    simp [h]
  | cons c t ih =>
    intro acc idc h
    simp only [splitId] at h
    split at h
    · exact absurd h (by simp)
    · split at h
      · simp at h
      · have := ih (acc ++ [ c ]) idc h
        simp [this]

/-- A dispatch parse with an absent kerl group determines the shape of the
whole input: the did prefix, the method, a colon and the id. -/
theorem parseDispatch_none_shape (l m id : List Char)
    (h : parseDispatch l = some (m, id, none)) :
    l = 'd' :: 'i' :: 'd' :: ':' :: (m ++ ':' :: id) := by
  unfold parseDispatch at h
  split at h
  · rename_i rest
    split at h
    · split at h
      · simp at h
      · split at h
        · rename_i c t hspan junk id2 kerl2 hsplit
          have h2 : (spanP isKeyIdChar rest).1 = m ∧ id2 = id ∧ kerl2 = none := by
            simpa using h
          obtain ⟨hm2, hid2, hk2⟩ := h2
          subst hk2
          have hid3 : id2 = [] ++ (c :: t) := splitId_none_eq (c :: t) [] id2 hsplit
          have hd := spanP_decomp isKeyIdChar rest
          rw [hm2, hspan] at hd
          rw [hd, ← hid2, hid3]
          simp
        · simp at h
    · simp at h
  · simp at h

/-- Claim C5 as amended: the non-failing and failing dispatch entry
points agree (Some exactly when Ok with the same document, None exactly
when an error) for every input string except two classes forced by the
code: a did:keri url whose kerl value fails base64url decoding, where
resolve_any collapses the failure to an empty event log and produces a
document while try_resolve_any surfaces the decode error (the
counterexample), and a did:key url carrying a kerl query, where the two
entry points hand different url strings, stripped versus original, to the
key resolver. -/
theorem spec_C5 (E : Externals) (s : String)
    (hkeri : ∀ m id k, parseDispatch s.toList = some (m, id, some k) →
      m = "keri".toList → ∃ bs, decodeBase64Url (String.mk k) = Except.ok bs)
    (hkey : ∀ m id k, parseDispatch s.toList = some (m, id, some k) →
      m ≠ "key".toList) :
    (∀ d, resolve_any E s = Outcome.ok (some d) ↔
      try_resolve_any E s = Outcome.ok (Except.ok d)) ∧
    ((resolve_any E s = Outcome.ok none) ↔
      (∃ e, try_resolve_any E s = Outcome.ok (Except.error e))) := by
  rcases hp : parseDispatch s.toList with _ | ⟨m, id, kerl⟩
  · have hr : resolve_any E s = Outcome.ok none := by
      simp only [resolve_any, hp]
    have ht : try_resolve_any E s =
        Outcome.ok (Except.error (DdoError.DidKeyError "not a did url")) := by
      simp only [try_resolve_any, hp]
    refine ⟨fun d => ?_, ?_⟩
    · rw [hr, ht]
      constructor <;> intro hx <;> simp at hx
    · rw [hr, ht]
      constructor
      · intro _
        exact ⟨DdoError.DidKeyError "not a did url", rfl⟩
      · intro _
        rfl
  · by_cases hm : m = "key".toList
    · cases kerl with
      | some k => exact absurd hm (hkey m id k hp)
      | none =>
        subst hm
        have hs2 : s = String.mk ( 'd' :: 'i' :: 'd' :: ':' ::
            ("key".toList ++ ':' :: id)) := by
          rw [← mk_toList s, parseDispatch_none_shape s.toList "key".toList id hp]
        have hr : resolve_any E s =
            match didKeyResolve E s with
            | Except.ok doc => Outcome.ok (some doc)
            | Except.error _ => Outcome.ok none := by
          simp only [resolve_any, hp]
          rw [hs2]
          rfl
        have ht : try_resolve_any E s =
            Outcome.ok (match didKeyResolve E s with
              | Except.ok d => Except.ok d
              | Except.error e => Except.error (DdoError.DidKeyError (errToString e))) := by
          simp only [try_resolve_any, hp]
          rfl
        cases hk : didKeyResolve E s with
        | ok d0 =>
          rw [hk] at hr ht
          refine ⟨fun d => ?_, ?_⟩
          · rw [hr, ht]
            constructor <;> intro hx
            · simp at hx ⊢
              exact hx
            · simp at hx ⊢
              exact hx
          · rw [hr, ht]
            constructor
            · intro hx
              simp at hx
            · rintro ⟨e, he⟩
              simp at he
        | error e0 =>
          rw [hk] at hr ht
          refine ⟨fun d => ?_, ?_⟩
          · rw [hr, ht]
            constructor <;> intro hx <;> simp at hx
          · rw [hr, ht]
            constructor
            · intro _
              exact ⟨_, rfl⟩
            · intro _
              rfl
    · by_cases hk2 : m = "keri".toList
      · subst hk2
        cases kerl with
        | none =>
          have hr : resolve_any E s = Outcome.panic "no group kerl" := by
            simp only [resolve_any, hp]
            rfl
          have ht : try_resolve_any E s = Outcome.panic "no group kerlid" := by
            simp only [try_resolve_any, hp]
            rfl
          refine ⟨fun d => ?_, ?_⟩
          · rw [hr, ht]
            constructor <;> intro hx <;> simp at hx
          · rw [hr, ht]
            constructor
            · intro hx
              simp at hx
            · rintro ⟨e, he⟩
              simp at he
        | some k =>
          obtain ⟨bs, hbs⟩ := hkeri _ id k hp rfl
          have hkb : kerlBytes k = bs := by simp [kerlBytes, hbs]
          have hr : resolve_any E s =
              match mem_parse E bs with
              | Outcome.panic msg => Outcome.panic msg
              | Outcome.ok st =>
                match didKeriResolve st (String.mk ("did:keri:".toList ++ id)) with
                | Except.ok doc => Outcome.ok (some doc)
                | Except.error _ => Outcome.ok none := by
            simp only [resolve_any, hp, hkb]
            rfl
          have ht : try_resolve_any E s =
              match mem_parse E bs with
              | Outcome.panic msg => Outcome.panic msg
              | Outcome.ok st =>
                Outcome.ok (didKeriResolve st (String.mk ("did:keri:".toList ++ id))) := by
            simp only [try_resolve_any, hp, hbs]
            rfl
          cases hmp : mem_parse E bs with
          | panic msg =>
            rw [hmp] at hr ht
            refine ⟨fun d => ?_, ?_⟩
            · rw [hr, ht]
              constructor <;> intro hx <;> simp at hx
            · rw [hr, ht]
              constructor
              · intro hx
                simp at hx
              · rintro ⟨e, he⟩
                simp at he
          | ok st =>
            rw [hmp] at hr ht
            have hr2 : resolve_any E s =
                Outcome.ok (some (didKeriResolveDoc st
                  (String.mk ("did:keri:".toList ++ id)))) := by
              rw [hr]
              rfl
            have ht2 : try_resolve_any E s =
                Outcome.ok (Except.ok (didKeriResolveDoc st
                  (String.mk ("did:keri:".toList ++ id)))) := by
              rw [ht]
              rfl
            refine ⟨fun d => ?_, ?_⟩
            · rw [hr2, ht2]
              constructor <;> intro hx
              · simp at hx ⊢
                exact hx
              · simp at hx ⊢
                exact hx
            · rw [hr2, ht2]
              constructor
              · intro hx
                simp at hx
              · rintro ⟨e, he⟩
                simp at he
      · have hr : resolve_any E s = Outcome.ok none := by
          simp only [resolve_any, hp]
          rw [if_neg hm, if_neg hk2]
        have ht : try_resolve_any E s =
            Outcome.ok (Except.error (DdoError.DidKeyError "not supported key url")) := by
          simp only [try_resolve_any, hp]
          rw [if_neg hm, if_neg hk2]
        refine ⟨fun d => ?_, ?_⟩
        · rw [hr, ht]
          constructor <;> intro hx <;> simp at hx
        · rw [hr, ht]
          constructor
          · intro _
            exact ⟨_, rfl⟩
          · intro _
            rfl

/-- The document that resolve_any produces for the identifier abc from an
empty replayed event log. -/
def docEmptyKeri : Document := didKeriResolveDoc initialState "did:keri:abc"

/-- Claim C5, counterexample: on a did:keri url whose kerl value A is not
valid base64url, resolve_any returns Some of the empty-log document while
try_resolve_any returns the decode error, so neither biconditional of the
claim holds at this input. -/
theorem spec_C5_cex :
    resolve_any extZero "did:keri:abc?kerl=A" = Outcome.ok (some docEmptyKeri) ∧
    try_resolve_any extZero "did:keri:abc?kerl=A" =
      Outcome.ok (Except.error DdoError.Base64DecodeError) := by
  exact ⟨by rfl, by rfl⟩

/-- Externals whose key resolver succeeds with an empty document. -/
def extOk : Externals :=
  { extKey := fun _ => Except.ok (mkDoc [])
    parseStream := fun _ => Except.ok []
    digest := digestW
    kaParse := fun _ => Except.error () }

/-- Claim C5, witness: the amended agreement applied to a plain did:key
url with a succeeding external key resolver, read in the direction from
resolve_any to try_resolve_any. -/
theorem spec_C5_witness :
    try_resolve_any extOk "did:key:abc" = Outcome.ok (Except.ok (mkDoc [])) :=
  ((spec_C5 extOk "did:key:abc"
      (by
        intro m id k h
        rw [show parseDispatch "did:key:abc".toList =
          some ("key".toList, "abc".toList, none) from rfl] at h
        simp at h)
      (by
        intro m id k h
        rw [show parseDispatch "did:key:abc".toList =
          some ("key".toList, "abc".toList, none) from rfl] at h
        simp at h)).1 (mkDoc [])).mp (by rfl)

/-- Externals whose stream deserializer yields one inception event. -/
def extOne : Externals :=
  { extKey := fun _ => Except.error "ext"
    parseStream := fun _ => Except.ok [Deserialized.event evW0]
    digest := digestW
    kaParse := fun _ => Except.error () }

/-- The document resolved from the one-inception stream. -/
def docW9 : Document := didKeriResolveDoc stW1 "did:keri:abc"

/-- Its single verification method. -/
def vmW9 : VerificationMethod := keriVM "did:keri:abc" bkA

/-- Claim C9, witness: a concrete resolution through resolve_any whose
document has a verification method, and that method has no private key,
by the theorem. -/
theorem spec_C9_witness :
    resolve_any extOne "did:keri:abc?kerl=AAAA" = Outcome.ok (some docW9) ∧
    vmW9.private_key = none :=
  ⟨by rfl,
   (spec_C9 extOne (by
      intro u d hd
      simp [extOne] at hd)).2
     "did:keri:abc?kerl=AAAA" docW9 (by rfl) vmW9 (by
       show vmW9 ∈ [vmW9]
       exact List.mem_singleton.mpr rfl)⟩
